import Mathlib

/-!
Verification of the diagnostic pipeline in `diagnose_search.py`.

The script is a linear sequence of six checks against external
collaborators (an embedding model, a database, a remote similarity-search
procedure).  We embed it shallowly: the behavior of every external call in
one run is recorded in a `World` record, and each stage of the script is a
pure Lean function from the `World` to a trace of events (printed lines,
section banners, external calls) together with the value the Python
function returns.  `main` composes the stages exactly as the script does.
-/

namespace Diagnose

/-- A Python value as it may appear in a stored chunk\x27s `embedding`
field: `None`/absent, a list of numbers, a string, or some other object
(carrying its truthiness and the text `type(..)` would print). -/
inductive PyVal where
  | vnone : PyVal
  | vlist : List ℚ → PyVal
  | vstr : String → PyVal
  | other : Bool → String → PyVal
deriving DecidableEq

/-- Python truthiness of a `PyVal` (`if embedding:`): `None` is falsy,
lists and strings are truthy iff non-empty. -/
def pyTruthy : PyVal → Bool
  | PyVal.vnone => false
  | PyVal.vlist xs => !xs.isEmpty
  | PyVal.vstr s => !s.isEmpty
  | PyVal.other b _ => b

/-- Python truthiness of an optional string (`if not url`): `None` and
the empty string are falsy. -/
def pyTruthyStr : Option String → Bool
  | none => false
  | some s => !s.isEmpty

/-- How Python prints an optional string inside an f-string: `None` for
absent, the string itself otherwise. -/
def pyShowOptStr : Option String → String
  | none => "None"
  | some s => s

/-- How Python prints a bool: `True` / `False`. -/
def pyShowBool : Bool → String
  | true => "True"
  | false => "False"

/-- How Python prints `result.count` (an int or `None`). -/
def pyShowOptNat : Option Nat → String
  | none => "None"
  | some n => toString n

/-- `best_match.get(\x27similarity\x27, \x27Unknown\x27)` rendered in an
f-string: the score when present, the default string otherwise. -/
def pyShowOptQ : Option ℚ → String
  | none => "Unknown"
  | some q => toString q

/-- A stored chunk as fetched by the sample query: optional content,
optional metadata (we keep its printed representation), and the
`embedding` field. -/
structure Chunk where
  content : Option String
  metadata : Option String
  embedding : PyVal
deriving DecidableEq

/-- One row returned by the `match_documents` remote call; `content` and
`similarity` may be absent (the script reads them with `.get`). -/
structure SearchResult where
  content : Option String
  similarity : Option ℚ
deriving DecidableEq

/-- The loaded embedding model: encoding a single string either raises
(error message) or returns a numeric vector.  (`model.encode([q])[0]`.) -/
structure Model where
  encode : String → Except String (List ℚ)

/-- All external behavior observable in one run of the script. -/
structure World where
  /-- `SentenceTransformer(\x27all-MiniLM-L6-v2\x27)`: raises or yields a model. -/
  loadResult : Except String Model
  /-- `os.getenv(\x27SUPABASE_URL\x27)`. -/
  url : Option String
  /-- `os.getenv(\x27SUPABASE_ANON_KEY\x27)`. -/
  key : Option String
  /-- `create_client(url, key)`: raises or succeeds. -/
  createClient : Except String Unit
  /-- The row-count query: raises, or returns `result.count` (possibly `None`). -/
  countResult : Except String (Option Nat)
  /-- The null-filtered embedding query: raises, or returns `result.data` (row ids). -/
  embRows : Except String (List String)
  /-- `supabase.rpc(\x27match_documents\x27, ...)`: given `query_embedding`,
  `match_threshold` and `match_count`, raises or returns `result.data`. -/
  rpc : List ℚ → ℚ → Nat → Except String (List SearchResult)
  /-- The `limit(3)` sample fetch: raises, or returns the chunks. -/
  sampleRows : Except String (List Chunk)

/-- An observable event of a run: a section banner (`print_section`), a
printed line, a traceback dump, or an external call being issued. -/
inductive Event where
  | sect : String → Event
  | line : String → Event
  | traceback : Event
  | loadModelCall : Event
  | encodeCall : String → Event
  | createClientCall : String → String → Event
  | countQueryCall : Event
  | embQueryCall : Event
  | sampleQueryCall : Event
  | rpcCall : List ℚ → ℚ → Nat → Event
deriving DecidableEq

/-- Stage 1, `test_basic_libraries`: load the model, encode the probe
string `"test"`, print the shape on success; on any error print the
message and return `None`. -/
def test_basic_libraries (w : World) : List Event × Option Model :=
  let hdr := [Event.sect "1. BASIC LIBRARY CHECK",
              Event.line "Testing SentenceTransformers...",
              Event.loadModelCall]
  match w.loadResult with
  | Except.error e =>
      (hdr ++ [Event.line ("❌ SentenceTransformers error: " ++ e)], none)
  | Except.ok m =>
      match m.encode "test" with
      | Except.error e =>
          (hdr ++ [Event.encodeCall "test",
                   Event.line ("❌ SentenceTransformers error: " ++ e)], none)
      | Except.ok v =>
          (hdr ++ [Event.encodeCall "test",
                   Event.line ("✅ SentenceTransformers working - embedding shape: (1, "
                     ++ toString v.length ++ ")")], some m)

/-- Stage 2, `test_environment`: print the URL in full and only the
presence bool of the key; fail iff either is missing/empty. -/
def test_environment (w : World) : List Event × (Option String × Option String) :=
  let hdr := [Event.sect "2. ENVIRONMENT CHECK",
              Event.line ("SUPABASE_URL: " ++ pyShowOptStr w.url),
              Event.line ("SUPABASE_ANON_KEY exists: " ++ pyShowBool (pyTruthyStr w.key))]
  if !pyTruthyStr w.url || !pyTruthyStr w.key then
    (hdr ++ [Event.line "❌ Missing environment variables!"], (none, none))
  else
    (hdr ++ [Event.line "✅ Environment variables found"], (w.url, w.key))

/-- Stage 3, `test_database_connection`: create the client, count rows
(fatal if exactly 0), check for at least one row with a non-null
embedding (fatal if none); any raised error is caught and fatal. -/
def test_database_connection (url key : String) (w : World) : List Event × Option Unit :=
  let hdr := [Event.sect "3. DATABASE CONNECTION", Event.createClientCall url key]
  match w.createClient with
  | Except.error e =>
      (hdr ++ [Event.line ("❌ Database connection error: " ++ e), Event.traceback], none)
  | Except.ok _ =>
      let t1 := hdr ++ [Event.line "✅ Supabase client created", Event.countQueryCall]
      match w.countResult with
      | Except.error e =>
          (t1 ++ [Event.line ("❌ Database connection error: " ++ e), Event.traceback], none)
      | Except.ok c =>
          let t2 := t1 ++ [Event.line ("✅ Database connected - Total chunks: " ++ pyShowOptNat c)]
          if c = some 0 then
            (t2 ++ [Event.line "❌ No document chunks found in database!"], none)
          else
            let t3 := t2 ++ [Event.embQueryCall]
            match w.embRows with
            | Except.error e =>
                (t3 ++ [Event.line ("❌ Database connection error: " ++ e), Event.traceback], none)
            | Except.ok rows =>
                let t4 := t3 ++ [Event.line ("✅ Chunks with embeddings: "
                  ++ (if 0 < rows.length then "Yes" else "No"))]
                if 0 < rows.length then
                  (t4, some ())
                else
                  (t4 ++ [Event.line "❌ No embeddings found!"], none)

/-- The synthetic probe vector of stage 4: `[0.1] * 384`. -/
def dummy_embedding : List ℚ := List.replicate 384 (1/10)

/-- Stage 4, `test_rpc_function`: invoke the remote similarity search with
the synthetic vector, threshold `0.0` and count `5`; success iff the call
returned without raising. -/
def test_rpc_function (w : World) : List Event × Bool :=
  let hdr := [Event.sect "4. RPC FUNCTION TEST", Event.rpcCall dummy_embedding 0 5]
  match w.rpc dummy_embedding 0 5 with
  | Except.ok data =>
      (hdr ++ [Event.line ("✅ RPC function works - returned "
        ++ toString data.length ++ " results")], true)
  | Except.error e =>
      (hdr ++ [Event.line ("❌ RPC function error: " ++ e),
               Event.line "This might be the main issue!", Event.traceback], false)

/-- Classification of a chunk\x27s embedding field printed by stage 5:
truthiness first, then `isinstance` dispatch. -/
def embedDesc (v : PyVal) : String :=
  if pyTruthy v then
    match v with
    | PyVal.vlist xs => "Embedding: List with " ++ toString xs.length ++ " dimensions"
    | PyVal.vstr s => "Embedding: String (length " ++ toString s.length ++ ")"
    | PyVal.vnone => "Embedding: None"
    | PyVal.other _ ty => "Embedding: <class \x27" ++ ty ++ "\x27>"
  else
    "Embedding: None"

/-- The lines stage 5 prints for the chunk at (0-based) index `i`. -/
def describeChunk (i : Nat) (c : Chunk) : List Event :=
  [Event.line ("\n--- Chunk " ++ toString (i + 1) ++ " ---"),
   Event.line ("Content: " ++ (c.content.getD "").take 100 ++ "..."),
   Event.line ("Metadata: " ++ c.metadata.getD "\x7b\x7d"),
   Event.line (embedDesc c.embedding)]

/-- Stage 5, `test_sample_data`: fetch up to 3 chunks and print each;
errors are caught and reported, nothing is returned. -/
def test_sample_data (w : World) : List Event :=
  let hdr := [Event.sect "5. SAMPLE DATA CHECK", Event.sampleQueryCall]
  match w.sampleRows with
  | Except.error e => hdr ++ [Event.line ("❌ Sample data error: " ++ e)]
  | Except.ok rows => hdr ++ (rows.enum.map (fun p => describeChunk p.1 p.2)).flatten

/-- The four fixed literal queries of stage 6. -/
def queries : List String :=
  ["software development process", "agile methodology",
   "testing procedures", "system architecture"]

/-- One iteration of stage 6\x27s loop: encode the query, invoke the
remote search, report the count and the best match; the whole body is
wrapped in its own try/except. -/
def searchOne (m : Model) (w : World) (q : String) : List Event :=
  let hdr := [Event.line ("\nTesting query: \x27" ++ q ++ "\x27"), Event.encodeCall q]
  match m.encode q with
  | Except.error e => hdr ++ [Event.line ("  ❌ Search failed: " ++ e)]
  | Except.ok v =>
      let hdr2 := hdr ++ [Event.rpcCall v 0 5]
      match w.rpc v 0 5 with
      | Except.error e => hdr2 ++ [Event.line ("  ❌ Search failed: " ++ e)]
      | Except.ok data =>
          let t := hdr2 ++ [Event.line ("  Results: " ++ toString data.length)]
          match data with
          | [] => t ++ [Event.line "  ❌ No results found!"]
          | best :: _ =>
              t ++ [Event.line ("  Best match (similarity: " ++ pyShowOptQ best.similarity
                ++ "): " ++ (best.content.getD "").take 100 ++ "...")]

/-- Stage 6, `test_actual_search`: run `searchOne` over the four queries. -/
def test_actual_search (m : Model) (w : World) : List Event :=
  Event.sect "6. ACTUAL SEARCH TEST" :: (queries.map (searchOne m w)).flatten

/-- How the process terminates: a plain return (exit status 0) or an
explicit `sys.exit` (the script never performs one). -/
inductive PyOutcome where
  | normal : PyOutcome
  | sysExit : Nat → PyOutcome
deriving DecidableEq

/-- The process exit status an outcome produces. -/
def exitCode : PyOutcome → Nat
  | PyOutcome.normal => 0
  | PyOutcome.sysExit n => n

/-- The two banner lines `main` prints first. -/
def preTrace : List Event :=
  [Event.line "🔍 COMPREHENSIVE SEARCH SYSTEM DIAGNOSIS",
   Event.line "This will identify exactly what\x27s wrong with your search"]

/-- `main`: run the stages in order with short-circuit returns on the
three fatal stages, skip stage 6 when the RPC check failed, and finish
with the completion banner. -/
def main (w : World) : List Event × PyOutcome :=
  let r1 := test_basic_libraries w
  match r1.2 with
  | none =>
      (preTrace ++ r1.1
        ++ [Event.line "\n❌ FATAL: Cannot proceed without working embeddings"],
       PyOutcome.normal)
  | some m =>
      let r2 := test_environment w
      if !pyTruthyStr r2.2.1 || !pyTruthyStr r2.2.2 then
        (preTrace ++ r1.1 ++ r2.1
          ++ [Event.line "\n❌ FATAL: Cannot proceed without environment variables"],
         PyOutcome.normal)
      else
        let r3 := test_database_connection (r2.2.1.getD "") (r2.2.2.getD "") w
        match r3.2 with
        | none =>
            (preTrace ++ r1.1 ++ r2.1 ++ r3.1
              ++ [Event.line "\n❌ FATAL: Cannot proceed without database connection"],
             PyOutcome.normal)
        | some _ =>
            let r4 := test_rpc_function w
            let t5 := test_sample_data w
            let t6 := if r4.2 then test_actual_search m w
                      else [Event.line "\n❌ SKIPPING search test - RPC function broken"]
            (preTrace ++ r1.1 ++ r2.1 ++ r3.1 ++ r4.1 ++ t5 ++ t6
              ++ [Event.sect "DIAGNOSIS COMPLETE",
                  Event.line "Share this output to get targeted fixes!"],
             PyOutcome.normal)

/-! ### Helper lemmas about the traces of the individual stages -/

/-- The only section banner stage 1 ever emits is its own. -/
lemma sects_lib (w : World) (t : String)
    (h : Event.sect t ∈ (test_basic_libraries w).1) : t = "1. BASIC LIBRARY CHECK" := by
  unfold test_basic_libraries at h
  split at h <;> [skip; split at h] <;> simp_all

/-- The only section banner stage 2 ever emits is its own. -/
lemma sects_env (w : World) (t : String)
    (h : Event.sect t ∈ (test_environment w).1) : t = "2. ENVIRONMENT CHECK" := by
  unfold test_environment at h
  split at h <;> simp_all

/-- The only section banner stage 3 ever emits is its own. -/
lemma sects_conn (url key : String) (w : World) (t : String)
    (h : Event.sect t ∈ (test_database_connection url key w).1) :
    t = "3. DATABASE CONNECTION" := by
  unfold test_database_connection at h
  split at h
  · simp_all
  · split at h
    · simp_all
    · split at h
      · simp_all
      · split at h
        · simp_all
        · split at h <;> simp_all

/-- The only section banner stage 4 ever emits is its own. -/
lemma sects_rpc (w : World) (t : String)
    (h : Event.sect t ∈ (test_rpc_function w).1) : t = "4. RPC FUNCTION TEST" := by
  unfold test_rpc_function at h
  split at h <;> simp_all

/-- `describeChunk` prints lines only, never a section banner. -/
lemma no_sect_describeChunk (i : Nat) (c : Chunk) (t : String) :
    Event.sect t ∉ describeChunk i c := by
  simp [describeChunk]

/-- The only section banner stage 5 ever emits is its own. -/
lemma sects_sample (w : World) (t : String)
    (h : Event.sect t ∈ test_sample_data w) : t = "5. SAMPLE DATA CHECK" := by
  unfold test_sample_data at h
  split at h
  · simp_all
  · simp only [List.mem_append, List.mem_cons, List.mem_flatten, List.mem_map] at h
    rcases h with h | ⟨l, ⟨p, _, hp⟩, hl⟩
    · simp_all
    · exact absurd (hp ▸ hl) (no_sect_describeChunk p.1 p.2 t)

/-- Stage 1 never issues the remote similarity call. -/
lemma no_rpcCall_lib (w : World) (emb : List ℚ) (thr : ℚ) (cnt : Nat) :
    Event.rpcCall emb thr cnt ∉ (test_basic_libraries w).1 := by
  unfold test_basic_libraries
  split <;> [skip; split] <;> simp

/-- Stage 2 never issues the remote similarity call. -/
lemma no_rpcCall_env (w : World) (emb : List ℚ) (thr : ℚ) (cnt : Nat) :
    Event.rpcCall emb thr cnt ∉ (test_environment w).1 := by
  unfold test_environment
  split <;> simp

/-- Stage 3 never issues the remote similarity call. -/
lemma no_rpcCall_conn (url key : String) (w : World) (emb : List ℚ) (thr : ℚ) (cnt : Nat) :
    Event.rpcCall emb thr cnt ∉ (test_database_connection url key w).1 := by
  unfold test_database_connection
  split
  · simp
  · split
    · simp
    · split
      · simp
      · split
        · simp
        · split <;> simp

/-- The pair returned by stage 2 when both configuration values are set. -/
lemma test_environment_snd_ok (w : World)
    (h2 : (!pyTruthyStr w.url || !pyTruthyStr w.key) = false) :
    (test_environment w).2 = (w.url, w.key) := by
  simp [test_environment, h2]

/-- The pair returned by stage 2 when a configuration value is missing. -/
lemma test_environment_snd_fail (w : World)
    (h2 : (!pyTruthyStr w.url || !pyTruthyStr w.key) = true) :
    (test_environment w).2 = (none, none) := by
  simp only [test_environment]
  rw [if_pos h2]

/-! ### Shape of `main` on the four kinds of runs -/

/-- When stage 1 fails, `main` stops right after the first fatal line. -/
lemma main_lib_fail (w : World) (h : (test_basic_libraries w).2 = none) :
    main w = (preTrace ++ (test_basic_libraries w).1
      ++ [Event.line "\n❌ FATAL: Cannot proceed without working embeddings"],
      PyOutcome.normal) := by
  unfold main
  simp only []
  split
  · rfl
  · simp_all

/-- When stage 1 succeeds but a configuration value is missing, `main`
stops right after the second fatal line. -/
lemma main_env_fail (w : World) (m : Model)
    (h1 : (test_basic_libraries w).2 = some m)
    (h2 : (!pyTruthyStr w.url || !pyTruthyStr w.key) = true) :
    main w = (preTrace ++ (test_basic_libraries w).1 ++ (test_environment w).1
      ++ [Event.line "\n❌ FATAL: Cannot proceed without environment variables"],
      PyOutcome.normal) := by
  unfold main
  simp only []
  split
  · simp_all
  · rw [test_environment_snd_fail w h2]
    simp [pyTruthyStr]

/-- When stages 1 and 2 succeed but stage 3 fails, `main` stops right
after the third fatal line. -/
lemma main_conn_fail (w : World) (m : Model)
    (h1 : (test_basic_libraries w).2 = some m)
    (h2 : (!pyTruthyStr w.url || !pyTruthyStr w.key) = false)
    (h3 : (test_database_connection ((w.url).getD "") ((w.key).getD "") w).2 = none) :
    main w = (preTrace ++ (test_basic_libraries w).1 ++ (test_environment w).1
      ++ (test_database_connection ((w.url).getD "") ((w.key).getD "") w).1
      ++ [Event.line "\n❌ FATAL: Cannot proceed without database connection"],
      PyOutcome.normal) := by
  unfold main
  simp only []
  split
  · simp_all
  · rw [test_environment_snd_ok w h2]
    rw [if_neg (by simp [h2])]
    split
    · rfl
    · simp_all

/-- When the three fatal stages succeed, `main` runs stages 4 and 5, then
either stage 6 or the skip message, and finishes with the banner. -/
lemma main_full (w : World) (m : Model)
    (h1 : (test_basic_libraries w).2 = some m)
    (h2 : (!pyTruthyStr w.url || !pyTruthyStr w.key) = false)
    (h3 : (test_database_connection ((w.url).getD "") ((w.key).getD "") w).2 = some ()) :
    main w = (preTrace ++ (test_basic_libraries w).1 ++ (test_environment w).1
      ++ (test_database_connection ((w.url).getD "") ((w.key).getD "") w).1
      ++ (test_rpc_function w).1 ++ test_sample_data w
      ++ (if (test_rpc_function w).2 then test_actual_search m w
          else [Event.line "\n❌ SKIPPING search test - RPC function broken"])
      ++ [Event.sect "DIAGNOSIS COMPLETE",
          Event.line "Share this output to get targeted fixes!"],
      PyOutcome.normal) := by
  unfold main
  simp only []
  split
  · simp_all
  · rename_i m' hm'
    rw [h1] at hm'
    injection hm' with hmm
    subst hmm
    rw [test_environment_snd_ok w h2]
    rw [if_neg (by simp [h2])]
    split
    · simp_all
    · rfl

/-- Every run of `main` terminates with a plain return, never `sys.exit`. -/
lemma main_outcome (w : World) : (main w).2 = PyOutcome.normal := by
  unfold main
  simp only []
  split
  · rfl
  · split
    · rfl
    · split <;> rfl

/-- An element missing from both halves is missing from the append. -/
lemma notin_append {α : Type} {a : α} {l₁ l₂ : List α}
    (h₁ : a ∉ l₁) (h₂ : a ∉ l₂) : a ∉ l₁ ++ l₂ :=
  fun h => (List.mem_append.mp h).elim (fun hx => h₁ hx) (fun hx => h₂ hx)

/-- Any section other than its own is absent from stage 1\x27s trace. -/
lemma sect_notin_lib (w : World) (t : String) (h : t ≠ "1. BASIC LIBRARY CHECK") :
    Event.sect t ∉ (test_basic_libraries w).1 :=
  fun hm => h (sects_lib w t hm)

/-- Any section other than its own is absent from stage 2\x27s trace. -/
lemma sect_notin_env (w : World) (t : String) (h : t ≠ "2. ENVIRONMENT CHECK") :
    Event.sect t ∉ (test_environment w).1 :=
  fun hm => h (sects_env w t hm)

/-- Any section other than its own is absent from stage 3\x27s trace. -/
lemma sect_notin_conn (url key : String) (w : World) (t : String)
    (h : t ≠ "3. DATABASE CONNECTION") :
    Event.sect t ∉ (test_database_connection url key w).1 :=
  fun hm => h (sects_conn url key w t hm)

/-- Any section other than its own is absent from stage 4\x27s trace. -/
lemma sect_notin_rpc (w : World) (t : String) (h : t ≠ "4. RPC FUNCTION TEST") :
    Event.sect t ∉ (test_rpc_function w).1 :=
  fun hm => h (sects_rpc w t hm)

/-- Any section other than its own is absent from stage 5\x27s trace. -/
lemma sect_notin_sample (w : World) (t : String) (h : t ≠ "5. SAMPLE DATA CHECK") :
    Event.sect t ∉ test_sample_data w :=
  fun hm => h (sects_sample w t hm)

/-! ### Concrete runs used to exercise the theorems -/

/-- A model that encodes every string to the expected 384-dimensional vector. -/
def okModel : Model := Model.mk (fun _ => Except.ok (List.replicate 384 (1/10)))

/-- A fully healthy run: every external call succeeds. -/
def okWorld : World :=
  { loadResult := Except.ok okModel
    url := some "https://example.supabase.co"
    key := some "anon-key"
    createClient := Except.ok ()
    countResult := Except.ok (some 42)
    embRows := Except.ok ["row-1"]
    rpc := fun _ _ _ => Except.ok [SearchResult.mk (some "chunk text") (some (1/2))]
    sampleRows := Except.ok [Chunk.mk (some "sample text") none
      (PyVal.vlist (List.replicate 384 (1/10)))] }

/-- A run whose model load raises. -/
def wLibFail : World := { okWorld with loadResult := Except.error "model load failed" }

/-- A run with the access key unset. -/
def wEnvFail : World := { okWorld with key := none }

/-- A run whose client creation raises. -/
def wConnFail : World := { okWorld with createClient := Except.error "connect refused" }

/-- A reachable store holding zero rows. -/
def wZeroRows : World := { okWorld with countResult := Except.ok (some 0) }

/-- A run whose count query reports no count at all. -/
def wNullCount : World := { okWorld with countResult := Except.ok none }

/-- A run whose remote similarity call raises. -/
def wRpcFail : World := { okWorld with rpc := fun _ _ _ => Except.error "rpc down" }

/-! ### The claims -/

/-- C1: for every run, if a fatal stage fails (Library Check returns no
model, Environment Check finds a missing value, or Connection Check
returns no client), the pipeline returns immediately after printing the
fatal message, and RPC Check (stage 4), Sample Inspection (stage 5) and
Live Query Check (stage 6) are never invoked. -/
theorem c1_fatal_stage_halts (w : World) :
    ((test_basic_libraries w).2 = none →
      (main w).1 = preTrace ++ (test_basic_libraries w).1
          ++ [Event.line "\n❌ FATAL: Cannot proceed without working embeddings"]
      ∧ Event.sect "2. ENVIRONMENT CHECK" ∉ (main w).1
      ∧ Event.sect "3. DATABASE CONNECTION" ∉ (main w).1
      ∧ Event.sect "4. RPC FUNCTION TEST" ∉ (main w).1
      ∧ Event.sect "5. SAMPLE DATA CHECK" ∉ (main w).1
      ∧ Event.sect "6. ACTUAL SEARCH TEST" ∉ (main w).1)
    ∧ (∀ m : Model, (test_basic_libraries w).2 = some m →
        (!pyTruthyStr w.url || !pyTruthyStr w.key) = true →
        (main w).1 = preTrace ++ (test_basic_libraries w).1 ++ (test_environment w).1
            ++ [Event.line "\n❌ FATAL: Cannot proceed without environment variables"]
        ∧ Event.sect "3. DATABASE CONNECTION" ∉ (main w).1
        ∧ Event.sect "4. RPC FUNCTION TEST" ∉ (main w).1
        ∧ Event.sect "5. SAMPLE DATA CHECK" ∉ (main w).1
        ∧ Event.sect "6. ACTUAL SEARCH TEST" ∉ (main w).1)
    ∧ (∀ m : Model, (test_basic_libraries w).2 = some m →
        (!pyTruthyStr w.url || !pyTruthyStr w.key) = false →
        (test_database_connection ((w.url).getD "") ((w.key).getD "") w).2 = none →
        (main w).1 = preTrace ++ (test_basic_libraries w).1 ++ (test_environment w).1
            ++ (test_database_connection ((w.url).getD "") ((w.key).getD "") w).1
            ++ [Event.line "\n❌ FATAL: Cannot proceed without database connection"]
        ∧ Event.sect "4. RPC FUNCTION TEST" ∉ (main w).1
        ∧ Event.sect "5. SAMPLE DATA CHECK" ∉ (main w).1
        ∧ Event.sect "6. ACTUAL SEARCH TEST" ∉ (main w).1) := by
  refine ⟨fun h => ?_, fun m h1 h2 => ?_, fun m h1 h2 h3 => ?_⟩
  · have hm := main_lib_fail w h
    refine ⟨by rw [hm], ?_, ?_, ?_, ?_, ?_⟩ <;>
    · rw [hm]
      exact notin_append
        (notin_append (by simp [preTrace]) (sect_notin_lib w _ (by decide)))
        (by simp)
  · have hm := main_env_fail w m h1 h2
    refine ⟨by rw [hm], ?_, ?_, ?_, ?_⟩ <;>
    · rw [hm]
      exact notin_append
        (notin_append
          (notin_append (by simp [preTrace]) (sect_notin_lib w _ (by decide)))
          (sect_notin_env w _ (by decide)))
        (by simp)
  · have hm := main_conn_fail w m h1 h2 h3
    refine ⟨by rw [hm], ?_, ?_, ?_⟩ <;>
    · rw [hm]
      exact notin_append
        (notin_append
          (notin_append
            (notin_append (by simp [preTrace]) (sect_notin_lib w _ (by decide)))
            (sect_notin_env w _ (by decide)))
          (sect_notin_conn _ _ w _ (by decide)))
        (by simp)

/-- Witness for C1, on the concrete run whose model load raises. -/
theorem c1_fatal_stage_halts_witness :
    (main wLibFail).1 = preTrace ++ (test_basic_libraries wLibFail).1
        ++ [Event.line "\n❌ FATAL: Cannot proceed without working embeddings"]
    ∧ Event.sect "2. ENVIRONMENT CHECK" ∉ (main wLibFail).1
    ∧ Event.sect "3. DATABASE CONNECTION" ∉ (main wLibFail).1
    ∧ Event.sect "4. RPC FUNCTION TEST" ∉ (main wLibFail).1
    ∧ Event.sect "5. SAMPLE DATA CHECK" ∉ (main wLibFail).1
    ∧ Event.sect "6. ACTUAL SEARCH TEST" ∉ (main wLibFail).1 :=
  (c1_fatal_stage_halts wLibFail).1 rfl

/-- Stage 5 always opens with its own section banner. -/
lemma sect5_mem_sample (w : World) :
    Event.sect "5. SAMPLE DATA CHECK" ∈ test_sample_data w := by
  unfold test_sample_data
  split <;> simp

/-- C2: whenever the run reaches RPC Check and the remote call raises,
Sample Inspection still executes, the only stage disabled is Live Query
Check (skipped with a message), and the completion banner is reached. -/
theorem c2_rpc_failure_nonfatal (w : World) (m : Model)
    (h1 : (test_basic_libraries w).2 = some m)
    (h2 : (!pyTruthyStr w.url || !pyTruthyStr w.key) = false)
    (h3 : (test_database_connection ((w.url).getD "") ((w.key).getD "") w).2 = some ())
    (h4 : (test_rpc_function w).2 = false) :
    Event.sect "5. SAMPLE DATA CHECK" ∈ (main w).1
    ∧ Event.line "\n❌ SKIPPING search test - RPC function broken" ∈ (main w).1
    ∧ Event.sect "6. ACTUAL SEARCH TEST" ∉ (main w).1
    ∧ Event.sect "DIAGNOSIS COMPLETE" ∈ (main w).1 := by
  have hm := main_full w m h1 h2 h3
  have hif : (if (test_rpc_function w).2 then test_actual_search m w
      else [Event.line "\n❌ SKIPPING search test - RPC function broken"])
      = [Event.line "\n❌ SKIPPING search test - RPC function broken"] := by
    simp [h4]
  rw [hif] at hm
  refine ⟨?_, ?_, ?_, ?_⟩
  · rw [hm]
    simp [List.mem_append, sect5_mem_sample]
  · rw [hm]
    simp [List.mem_append]
  · rw [hm]
    exact notin_append (notin_append (notin_append (notin_append (notin_append
      (notin_append
        (notin_append (by simp [preTrace]) (sect_notin_lib w _ (by decide)))
        (sect_notin_env w _ (by decide)))
      (sect_notin_conn _ _ w _ (by decide)))
      (sect_notin_rpc w _ (by decide)))
      (sect_notin_sample w _ (by decide)))
      (by simp))
      (by simp)
  · rw [hm]
    simp [List.mem_append]

/-- Witness for C2, on the concrete run whose remote call raises. -/
theorem c2_rpc_failure_nonfatal_witness :
    Event.sect "5. SAMPLE DATA CHECK" ∈ (main wRpcFail).1
    ∧ Event.line "\n❌ SKIPPING search test - RPC function broken" ∈ (main wRpcFail).1
    ∧ Event.sect "6. ACTUAL SEARCH TEST" ∉ (main wRpcFail).1
    ∧ Event.sect "DIAGNOSIS COMPLETE" ∈ (main wRpcFail).1 :=
  c2_rpc_failure_nonfatal wRpcFail okModel rfl (by decide) (by decide) rfl

/-- The exact behavior of Connection Check on a reachable store with an
exact count of zero rows. -/
lemma conn_zero_rows (url key : String) (w : World)
    (h3 : w.createClient = Except.ok ()) (h4 : w.countResult = Except.ok (some 0)) :
    test_database_connection url key w =
      ([Event.sect "3. DATABASE CONNECTION", Event.createClientCall url key,
        Event.line "✅ Supabase client created", Event.countQueryCall,
        Event.line ("✅ Database connected - Total chunks: " ++ pyShowOptNat (some 0)),
        Event.line "❌ No document chunks found in database!"], none) := by
  unfold test_database_connection
  rw [h3, h4]
  rfl

/-- C4: a reachable store whose row-count query reports exactly 0 rows
makes Connection Check print the zero-row fatal message, and the run
terminates before RPC Check is ever invoked. -/
theorem c4_zero_rows_fatal (w : World) (m : Model)
    (h1 : (test_basic_libraries w).2 = some m)
    (h2 : (!pyTruthyStr w.url || !pyTruthyStr w.key) = false)
    (h3 : w.createClient = Except.ok ())
    (h4 : w.countResult = Except.ok (some 0)) :
    Event.line "❌ No document chunks found in database!" ∈ (main w).1
    ∧ (main w).1 = preTrace ++ (test_basic_libraries w).1 ++ (test_environment w).1
        ++ (test_database_connection ((w.url).getD "") ((w.key).getD "") w).1
        ++ [Event.line "\n❌ FATAL: Cannot proceed without database connection"]
    ∧ Event.sect "4. RPC FUNCTION TEST" ∉ (main w).1
    ∧ (∀ emb thr cnt, Event.rpcCall emb thr cnt ∉ (main w).1) := by
  have hzero := conn_zero_rows ((w.url).getD "") ((w.key).getD "") w h3 h4
  have hconn : (test_database_connection ((w.url).getD "") ((w.key).getD "") w).2 = none := by
    rw [hzero]
  have hm := main_conn_fail w m h1 h2 hconn
  refine ⟨?_, by rw [hm], ?_, ?_⟩
  · have hd : Event.line "❌ No document chunks found in database!"
        ∈ (test_database_connection ((w.url).getD "") ((w.key).getD "") w).1 := by
      rw [hzero]
      simp
    rw [hm]
    exact List.mem_append.mpr (Or.inl (List.mem_append.mpr (Or.inr hd)))
  · rw [hm]
    exact notin_append
      (notin_append
        (notin_append
          (notin_append (by simp [preTrace]) (sect_notin_lib w _ (by decide)))
          (sect_notin_env w _ (by decide)))
        (sect_notin_conn _ _ w _ (by decide)))
      (by simp)
  · intro emb thr cnt
    rw [hm]
    exact notin_append
      (notin_append
        (notin_append
          (notin_append (by simp [preTrace]) (no_rpcCall_lib w emb thr cnt))
          (no_rpcCall_env w emb thr cnt))
        (no_rpcCall_conn _ _ w emb thr cnt))
      (by simp)

/-- Witness for C4, on the concrete reachable store holding zero rows. -/
theorem c4_zero_rows_fatal_witness :
    Event.line "❌ No document chunks found in database!" ∈ (main wZeroRows).1
    ∧ (main wZeroRows).1 = preTrace ++ (test_basic_libraries wZeroRows).1
        ++ (test_environment wZeroRows).1
        ++ (test_database_connection ((wZeroRows.url).getD "") ((wZeroRows.key).getD "") wZeroRows).1
        ++ [Event.line "\n❌ FATAL: Cannot proceed without database connection"]
    ∧ Event.sect "4. RPC FUNCTION TEST" ∉ (main wZeroRows).1
    ∧ (∀ emb thr cnt, Event.rpcCall emb thr cnt ∉ (main wZeroRows).1) :=
  c4_zero_rows_fatal wZeroRows okModel rfl (by decide) rfl rfl

/-- Whether an external call returned without raising. -/
def isOkE {ε α : Type} : Except ε α → Bool
  | Except.ok _ => true
  | Except.error _ => false

/-- C3: the synthetic probe passed to the remote call has exactly 384
entries, all equal to 0.1, the call carries threshold 0.0 and count 5,
and the stage succeeds iff the call returned without raising, regardless
of how many results came back. -/
theorem c3_rpc_probe (w : World) :
    dummy_embedding.length = 384
    ∧ (∀ x ∈ dummy_embedding, x = 1/10)
    ∧ (∃ rest, (test_rpc_function w).1
        = Event.sect "4. RPC FUNCTION TEST" :: Event.rpcCall dummy_embedding 0 5 :: rest)
    ∧ ((test_rpc_function w).2 = true ↔ isOkE (w.rpc dummy_embedding 0 5) = true) := by
  refine ⟨by unfold dummy_embedding; exact List.length_replicate _ _,
    fun x hx => List.eq_of_mem_replicate hx, ?_, ?_⟩
  · unfold test_rpc_function
    cases h : w.rpc dummy_embedding 0 5 <;> exact ⟨_, rfl⟩
  · unfold test_rpc_function
    cases h : w.rpc dummy_embedding 0 5 <;> simp [isOkE]

/-- Witness for C3: the all-equal hypothesis applied to a concrete entry. -/
theorem c3_rpc_probe_witness :
    (1/10 : ℚ) = 1/10 ∧ dummy_embedding.length = 384 :=
  ⟨(c3_rpc_probe okWorld).2.1 (1/10) (List.mem_replicate.mpr ⟨by decide, rfl⟩),
   (c3_rpc_probe okWorld).1⟩

/-- A model whose probe vector has the wrong shape (5 entries, not 384). -/
def modelWrongShape : Model := Model.mk (fun _ => Except.ok (List.replicate 5 0))

/-- A run whose model loads and encodes without error but produces a
vector of unexpected shape. -/
def wWrongShape : World := { okWorld with loadResult := Except.ok modelWrongShape }

/-- C6 counterexample: Library Check returns the model (success) even
though encoding the probe "test" produced a 5-dimensional vector, not the
expected 384-dimensional shape; the stage never validates the shape. -/
theorem c6_library_check_counterexample :
    modelWrongShape.encode "test" = Except.ok (List.replicate 5 (0 : ℚ))
    ∧ (List.replicate 5 (0 : ℚ)).length ≠ 384
    ∧ (test_basic_libraries wWrongShape).2 = some modelWrongShape :=
  ⟨rfl, by decide, rfl⟩

/-- C6 (amended): Library Check succeeds iff loading the model and
encoding the literal probe "test" raise no error — the returned vector\x27s
shape is printed but never validated — and on any load or encode error it
reports the error message and the pipeline halts before Environment
Check. -/
theorem c6_library_check_amended (w : World) :
    ((test_basic_libraries w).2.isSome = true ↔
      ∃ m v, w.loadResult = Except.ok m ∧ m.encode "test" = Except.ok v)
    ∧ (∀ e, w.loadResult = Except.error e →
        Event.line ("❌ SentenceTransformers error: " ++ e) ∈ (test_basic_libraries w).1)
    ∧ (∀ m e, w.loadResult = Except.ok m → m.encode "test" = Except.error e →
        Event.line ("❌ SentenceTransformers error: " ++ e) ∈ (test_basic_libraries w).1)
    ∧ ((test_basic_libraries w).2 = none →
        Event.sect "2. ENVIRONMENT CHECK" ∉ (main w).1
        ∧ (main w).1 = preTrace ++ (test_basic_libraries w).1
            ++ [Event.line "\n❌ FATAL: Cannot proceed without working embeddings"]) := by
  refine ⟨?_, ?_, ?_, fun h => ?_⟩
  · unfold test_basic_libraries
    cases hL : w.loadResult with
    | error e => simp
    | ok m =>
      cases hE : m.encode "test" with
      | error e => simp [hE]
      | ok v => simp [hE]
  · intro e he
    unfold test_basic_libraries
    rw [he]
    simp
  · intro m e hm he
    unfold test_basic_libraries
    rw [hm]
    simp [he]
  · have hm := main_lib_fail w h
    refine ⟨?_, by rw [hm]⟩
    rw [hm]
    exact notin_append
      (notin_append (by simp [preTrace]) (sect_notin_lib w _ (by decide)))
      (by simp)

/-- Witness for the amended C6, on the concrete run whose load raises. -/
theorem c6_library_check_amended_witness :
    Event.line ("❌ SentenceTransformers error: " ++ "model load failed")
      ∈ (test_basic_libraries wLibFail).1 :=
  (c6_library_check_amended wLibFail).2.1 "model load failed" rfl

/-- C7: every execution path, fatal-failure paths included, terminates
with the same process exit status as the success path; failures surface
only as printed messages. -/
theorem c7_exit_status_uniform (w₁ w₂ : World) :
    exitCode (main w₁).2 = exitCode (main w₂).2 := by
  rw [main_outcome w₁, main_outcome w₂]

/-- Unfolding of a stage-6 iteration whose encode raises. -/
lemma searchOne_encode_error (m : Model) (w : World) (q e : String)
    (h : m.encode q = Except.error e) :
    searchOne m w q = [Event.line ("\nTesting query: \x27" ++ q ++ "\x27"),
      Event.encodeCall q, Event.line ("  ❌ Search failed: " ++ e)] := by
  unfold searchOne
  rw [h]
  rfl

/-- Unfolding of a stage-6 iteration whose remote call raises. -/
lemma searchOne_rpc_error (m : Model) (w : World) (q : String) (v : List ℚ) (e : String)
    (h1 : m.encode q = Except.ok v) (h2 : w.rpc v 0 5 = Except.error e) :
    searchOne m w q = [Event.line ("\nTesting query: \x27" ++ q ++ "\x27"),
      Event.encodeCall q, Event.rpcCall v 0 5,
      Event.line ("  ❌ Search failed: " ++ e)] := by
  unfold searchOne
  rw [h1]
  simp [h2]

/-- Unfolding of a stage-6 iteration whose encode and remote call both
return. -/
lemma searchOne_rpc_ok (m : Model) (w : World) (q : String) (v : List ℚ)
    (data : List SearchResult)
    (h1 : m.encode q = Except.ok v) (h2 : w.rpc v 0 5 = Except.ok data) :
    searchOne m w q = [Event.line ("\nTesting query: \x27" ++ q ++ "\x27"),
      Event.encodeCall q, Event.rpcCall v 0 5,
      Event.line ("  Results: " ++ toString data.length)]
      ++ (match data with
          | [] => [Event.line "  ❌ No results found!"]
          | best :: _ =>
              [Event.line ("  Best match (similarity: " ++ pyShowOptQ best.similarity
                ++ "): " ++ (best.content.getD "").take 100 ++ "...")]) := by
  cases data with
  | nil =>
      unfold searchOne
      rw [h1]
      simp [h2]
  | cons b r =>
      unfold searchOne
      rw [h1]
      simp [h2]

/-- Each loop iteration of stage 6 opens with its testing line followed
by its encode call, whatever happens afterwards. -/
lemma searchOne_shape (m : Model) (w : World) (q : String) :
    ∃ rest, searchOne m w q
      = Event.line ("\nTesting query: \x27" ++ q ++ "\x27")
        :: Event.encodeCall q :: rest := by
  cases henc : m.encode q with
  | error e => exact ⟨_, searchOne_encode_error m w q e henc⟩
  | ok v =>
    cases hrpc : w.rpc v 0 5 with
    | error e => exact ⟨_, searchOne_rpc_error m w q v e henc hrpc⟩
    | ok data => exact ⟨_, searchOne_rpc_ok m w q v data henc hrpc⟩

/-- If every block contains the marked element (after some prefix), the
marked elements appear in order inside the flattened blocks. -/
lemma marked_sublist_flatten {α β : Type} (f : α → β) (g : α → List β)
    (h : ∀ a, ∃ p r, g a = p ++ f a :: r) (l : List α) :
    List.Sublist (l.map f) ((l.map g).flatten) := by
  induction l with
  | nil => simp
  | cons a l ih =>
      obtain ⟨p, r, hr⟩ := h a
      simp only [List.map_cons, List.flatten_cons, hr, List.append_assoc, List.cons_append]
      refine List.Sublist.trans ?_ (List.sublist_append_right p _)
      exact List.Sublist.cons₂ _ (List.Sublist.trans ih (List.sublist_append_right r _))

/-- C5: Live Query Check attempts all four fixed literal queries, in
order, regardless of per-query failures — every iteration begins with its
testing line and its encode call — and for each query whose encode and
remote call succeed, the result count is reported, plus the top result\x27s
similarity and truncated content when results exist. -/
theorem c5_live_query_check (m : Model) (w : World) :
    queries = ["software development process", "agile methodology",
               "testing procedures", "system architecture"]
    ∧ test_actual_search m w
        = Event.sect "6. ACTUAL SEARCH TEST" :: (queries.map (searchOne m w)).flatten
    ∧ List.Sublist
        (queries.map (fun q => Event.line ("\nTesting query: \x27" ++ q ++ "\x27")))
        (test_actual_search m w)
    ∧ List.Sublist (queries.map Event.encodeCall) (test_actual_search m w)
    ∧ (∀ q v data, m.encode q = Except.ok v → w.rpc v 0 5 = Except.ok data →
        Event.line ("  Results: " ++ toString data.length) ∈ searchOne m w q
        ∧ ∀ best rest, data = best :: rest →
            Event.line ("  Best match (similarity: " ++ pyShowOptQ best.similarity
              ++ "): " ++ (best.content.getD "").take 100 ++ "...")
              ∈ searchOne m w q) := by
  refine ⟨rfl, rfl, ?_, ?_, ?_⟩
  · refine List.Sublist.cons _ (marked_sublist_flatten _ _ (fun q => ?_) queries)
    obtain ⟨rest, hr⟩ := searchOne_shape m w q
    exact ⟨[], Event.encodeCall q :: rest, by rw [hr]; rfl⟩
  · refine List.Sublist.cons _ (marked_sublist_flatten _ _ (fun q => ?_) queries)
    obtain ⟨rest, hr⟩ := searchOne_shape m w q
    exact ⟨[Event.line ("\nTesting query: \x27" ++ q ++ "\x27")], rest, by rw [hr]; rfl⟩
  · intro q v data henc hrpc
    rw [searchOne_rpc_ok m w q v data henc hrpc]
    constructor
    · simp
    · intro best rest hd
      subst hd
      simp

/-- Witness for C5, on the healthy run at the second query. -/
theorem c5_live_query_check_witness :
    Event.line ("  Results: " ++ toString
        [SearchResult.mk (some "chunk text") (some ((1:ℚ)/2))].length)
      ∈ searchOne okModel okWorld "agile methodology" :=
  ((c5_live_query_check okModel okWorld).2.2.2.2 "agile methodology"
    (List.replicate 384 (1/10)) [SearchResult.mk (some "chunk text") (some (1/2))]
    rfl rfl).1

/-- The generic database error line can never coincide with the zero-row
fatal line, whatever the reported error text. -/
lemma db_error_line_ne (e : String) :
    "❌ Database connection error: " ++ e
      ≠ "❌ No document chunks found in database!" := by
  intro h
  have h2 : ("❌ Database connection error: ").data ++ e.data
      = ("❌ No document chunks found in database!").data := by
    rw [← String.data_append, h]
  have h3 := congrArg (fun l => l[2]?) h2
  simp only [] at h3
  rw [List.getElem?_append_left (by decide)] at h3
  revert h3
  decide

/-- C8: the zero-row halt fires only on an exact count of 0: a count
query that returns without error but reports no count lets the check
print the total, proceed to the embedding-presence query, and never print
the zero-row fatal line; the stage then succeeds iff the embedding query
returns rows. -/
theorem c8_null_count_proceeds (url key : String) (w : World)
    (h3 : w.createClient = Except.ok ()) (h4 : w.countResult = Except.ok none) :
    Event.line ("✅ Database connected - Total chunks: " ++ pyShowOptNat none)
        ∈ (test_database_connection url key w).1
    ∧ Event.embQueryCall ∈ (test_database_connection url key w).1
    ∧ Event.line "❌ No document chunks found in database!"
        ∉ (test_database_connection url key w).1
    ∧ ((test_database_connection url key w).2 = some ()
        ↔ ∃ rows, w.embRows = Except.ok rows ∧ 0 < rows.length) := by
  unfold test_database_connection
  rw [h3, h4]
  cases hR : w.embRows with
  | error e =>
      have hne := Ne.symm (db_error_line_ne e)
      simp [pyShowOptNat, hne]
  | ok rows =>
      by_cases hlen : 0 < rows.length
      · simp [pyShowOptNat, hlen]
      · simp [pyShowOptNat, hlen]

/-- Witness for C8, on the concrete run whose count query reports `None`. -/
theorem c8_null_count_proceeds_witness :
    Event.line ("✅ Database connected - Total chunks: " ++ pyShowOptNat none)
        ∈ (test_database_connection "u" "k" wNullCount).1
    ∧ Event.embQueryCall ∈ (test_database_connection "u" "k" wNullCount).1
    ∧ Event.line "❌ No document chunks found in database!"
        ∉ (test_database_connection "u" "k" wNullCount).1
    ∧ ((test_database_connection "u" "k" wNullCount).2 = some ()
        ↔ ∃ rows, wNullCount.embRows = Except.ok rows ∧ 0 < rows.length) :=
  c8_null_count_proceeds "u" "k" wNullCount rfl rfl

/-- C9: a chunk whose embedding field is an empty list is classified
exactly like one with an absent embedding — the stage prints the None
classification and never "List with 0 dimensions" — while the numeric
list classification is printed precisely for non-empty lists. -/
theorem c9_empty_embedding_as_none (i : Nat) (c : Chunk)
    (h : c.embedding = PyVal.vlist []) :
    describeChunk i c = describeChunk i (Chunk.mk c.content c.metadata PyVal.vnone)
    ∧ Event.line "Embedding: None" ∈ describeChunk i c
    ∧ embedDesc (PyVal.vlist []) = "Embedding: None"
    ∧ embedDesc (PyVal.vlist []) ≠ "Embedding: List with 0 dimensions"
    ∧ (∀ xs : List ℚ, xs ≠ [] →
        embedDesc (PyVal.vlist xs)
          = "Embedding: List with " ++ toString xs.length ++ " dimensions") := by
  refine ⟨?_, ?_, rfl, by decide, ?_⟩
  · simp [describeChunk, h, embedDesc, pyTruthy]
  · simp [describeChunk, h, embedDesc, pyTruthy]
  · intro xs hxs
    cases xs with
    | nil => exact absurd rfl hxs
    | cons a l => simp [embedDesc, pyTruthy]

/-- Witness for C9, on a concrete chunk carrying an empty list. -/
theorem c9_empty_embedding_as_none_witness :
    Event.line "Embedding: None"
      ∈ describeChunk 0 (Chunk.mk none none (PyVal.vlist [])) :=
  (c9_empty_embedding_as_none 0 (Chunk.mk none none (PyVal.vlist [])) rfl).2.1

/-- With a truthy key, the gate `main` applies to Environment Check\x27s
result depends only on the URL. -/
lemma env_gate (w : World) (hk : pyTruthyStr w.key = true) :
    (!pyTruthyStr (test_environment w).2.1 || !pyTruthyStr (test_environment w).2.2)
      = !pyTruthyStr w.url := by
  cases hu : pyTruthyStr w.url with
  | false =>
      rw [test_environment_snd_fail w (by simp [hu])]
      simp [pyTruthyStr, hu]
  | true =>
      rw [test_environment_snd_ok w (by simp [hu, hk])]
      simp [hu, hk]

/-- C10: Environment Check never reveals the access key\x27s value: two
runs that agree on the URL and both carry a non-empty key print identical
output and agree on success and failure, while the URL is printed in full
and the key only as a presence boolean. -/
theorem c10_key_noninterference (w₁ w₂ : World)
    (hurl : w₁.url = w₂.url)
    (hk₁ : pyTruthyStr w₁.key = true) (hk₂ : pyTruthyStr w₂.key = true) :
    (test_environment w₁).1 = (test_environment w₂).1
    ∧ ((!pyTruthyStr (test_environment w₁).2.1 || !pyTruthyStr (test_environment w₁).2.2)
        = (!pyTruthyStr (test_environment w₂).2.1 || !pyTruthyStr (test_environment w₂).2.2))
    ∧ Event.line ("SUPABASE_URL: " ++ pyShowOptStr w₁.url) ∈ (test_environment w₁).1
    ∧ Event.line ("SUPABASE_ANON_KEY exists: " ++ pyShowBool true)
        ∈ (test_environment w₁).1 := by
  refine ⟨?_, ?_, ?_, ?_⟩
  · unfold test_environment
    rw [hurl, hk₁, hk₂]
    cases hu : pyTruthyStr w₂.url <;> simp [hu]
  · rw [env_gate w₁ hk₁, env_gate w₂ hk₂, hurl]
  · unfold test_environment
    split <;> simp
  · unfold test_environment
    rw [hk₁]
    split <;> simp

/-- A healthy run differing from `okWorld` only in the key\x27s value. -/
def okWorld2 : World := { okWorld with key := some "another-key" }

/-- Witness for C10, on two healthy runs with different keys. -/
theorem c10_key_noninterference_witness :
    (test_environment okWorld).1 = (test_environment okWorld2).1
    ∧ ((!pyTruthyStr (test_environment okWorld).2.1
          || !pyTruthyStr (test_environment okWorld).2.2)
        = (!pyTruthyStr (test_environment okWorld2).2.1
          || !pyTruthyStr (test_environment okWorld2).2.2))
    ∧ Event.line ("SUPABASE_URL: " ++ pyShowOptStr okWorld.url)
        ∈ (test_environment okWorld).1
    ∧ Event.line ("SUPABASE_ANON_KEY exists: " ++ pyShowBool true)
        ∈ (test_environment okWorld).1 :=
  c10_key_noninterference okWorld okWorld2 rfl (by decide) (by decide)

end Diagnose
